import Mathlib

/-!
Verification of the Economy & Progression Engine of an idle-tycoon game backend.

The Python sources live in `backend/game/engine.py` (class `GameEngine`),
`backend/database/db.py` (class `Database`) and `backend/config/settings.py`.
All engine arithmetic is embedded over `ℚ` (the Python code uses IEEE floats;
every concrete value appearing in the claims is exactly representable and the
claims are about the algorithmic structure, not float rounding).  The Python
`datetime` values are embedded as rational numbers of seconds since an
arbitrary epoch, so `(now - last_collected).total_seconds()` becomes
`now - last_collected`.
-/

/-- `settings.OFFLINE_INCOME_MAX_HOURS` (`backend/config/settings.py`), default 24.
Used as the default `max_hours` of `calculate_offline_income`. -/
def OFFLINE_INCOME_MAX_HOURS : ℚ := 24

/-- `settings.INITIAL_GUESTS_PER_HOUR` (`backend/config/settings.py`), default 2. -/
def INITIAL_GUESTS_PER_HOUR : ℚ := 2

/-- `GameEngine.calculate_offline_income` (`backend/game/engine.py` lines 14-43).
The Python body samples the wall clock itself (`now = datetime.now()`); here the
sampled clock value is the explicit argument `now`, in seconds, next to the
function's real arguments `income_per_hour`, `last_collected` and `max_hours`.
`hours = (now - last_collected).total_seconds() / 3600`, then
`hours = min(hours, max_hours)`, then `income = income_per_hour * hours`;
returns `(income, hours)`.  There is no clamping of negative elapsed time. -/
def calculate_offline_income (income_per_hour last_collected now max_hours : ℚ) :
    ℚ × ℚ :=
  let hours := (now - last_collected) / 3600
  let hours := min hours max_hours
  let income := income_per_hour * hours
  (income, hours)

/-- `GameEngine.calculate_upgrade_cost` (`backend/game/engine.py` lines 45-59):
`math.ceil(base_cost * (multiplier ** current_level))`.  `math.ceil` returns an
integer, embedded as `Int.ceil` on `ℚ`. -/
def calculate_upgrade_cost (base_cost : ℚ) (current_level : ℕ)
    (multiplier : ℚ) : ℤ :=
  ⌈base_cost * multiplier ^ current_level⌉

/-- One entry of the `upgrades` list passed to `calculate_total_income`: a dict
read with `upgrade.get('level', 0)`, `upgrade.get('income_bonus', 0)`,
`upgrade.get('guests_bonus', 0)`; each key may be absent, hence `Option`. -/
structure UpgradeRow where
  level : Option ℚ
  income_bonus : Option ℚ
  guests_bonus : Option ℚ

/-- `GameEngine.calculate_total_income` (`backend/game/engine.py` lines 61-90).
A single loop accumulates `total_income_bonus += income_bonus * level` and
`total_guests_bonus += guests_bonus * level`; the result is
`(base_income + total_income_bonus,
  settings.INITIAL_GUESTS_PER_HOUR + total_guests_bonus)`.
The configured setting `INITIAL_GUESTS_PER_HOUR` is the explicit argument
`initial_guests` (its default configuration value is 2). -/
def calculate_total_income (base_income : ℚ) (upgrades : List UpgradeRow)
    (initial_guests : ℚ) : ℚ × ℚ :=
  let totals := upgrades.foldl
    (fun acc upgrade =>
      (acc.1 + upgrade.income_bonus.getD 0 * upgrade.level.getD 0,
       acc.2 + upgrade.guests_bonus.getD 0 * upgrade.level.getD 0))
    ((0 : ℚ), (0 : ℚ))
  (base_income + totals.1, initial_guests + totals.2)

/-- Round a rational to the nearest integer, ties to even — the rounding of
Python's builtin `round`. -/
def roundHalfEven (q : ℚ) : ℤ :=
  let f := ⌊q⌋
  let r := q - f
  if r < 1 / 2 then f
  else if 1 / 2 < r then f + 1
  else if f % 2 = 0 then f else f + 1

/-- Python's `round(x, 2)`: round to 2 fractional digits, ties to even. -/
def pyRound2 (q : ℚ) : ℚ := (roundHalfEven (q * 100) : ℚ) / 100

/-- The `multipliers` dict of `GameEngine.calculate_minigame_reward` together
with the `.get(game_type, 0.5)` default. -/
def minigameMultiplier (game_type : String) : ℚ :=
  if game_type = "burger_flip" then 1 / 2
  else if game_type = "speed_tap" then 3 / 10
  else if game_type = "memory" then 1
  else 1 / 2

/-- `GameEngine.calculate_minigame_reward` (`backend/game/engine.py` lines
92-120): `reward = score * multiplier`; then `if score > 50: reward *= 1.5`
`elif score > 100: reward *= 2.0`; returns `round(reward, 2)`. -/
def calculate_minigame_reward (score : ℤ) (game_type : String) : ℚ :=
  let multiplier := minigameMultiplier game_type
  let reward := (score : ℚ) * multiplier
  let reward :=
    if 50 < score then reward * (3 / 2)
    else if 100 < score then reward * 2
    else reward
  pyRound2 reward

/-- The `progress_data` dict of `GameEngine.check_achievement_progress`: the
keys `total_earned` and `upgrades_count` are read with `.get(key, 0)` and may
be absent, hence `Option`. -/
structure ProgressData where
  total_earned : Option ℚ
  upgrades_count : Option ℚ

/-- The `achievement` dict of `GameEngine.check_achievement_progress`: both
keys are read with mandatory indexing (`achievement['condition_type']`). -/
structure AchievementRow where
  condition_type : String
  condition_value : ℚ

/-- `GameEngine.check_achievement_progress` (`backend/game/engine.py` lines
122-152).  String-keyed dispatch on `condition_type`; the comparisons are
`progress_data.get(key, 0) >= condition_value`; the `guests_served` branch is
`return False  # TODO` and the fall-through is also `return False`. -/
def check_achievement_progress (progress_data : ProgressData)
    (achievement : AchievementRow) : Bool :=
  if achievement.condition_type = "total_earned" then
    progress_data.total_earned.getD 0 ≥ achievement.condition_value
  else if achievement.condition_type = "upgrades_count" then
    progress_data.upgrades_count.getD 0 ≥ achievement.condition_value
  else if achievement.condition_type = "guests_served" then
    false
  else
    false

/-- Python's `int()` on a non-negative-or-negative number: truncation toward
zero, used by `GameEngine.format_time`. -/
def pyInt (q : ℚ) : ℤ := if 0 ≤ q then ⌊q⌋ else -⌊-q⌋

/-- Render an integer in decimal, as Python `str`/f-string does. -/
def intStr (z : ℤ) : String := toString z

/-- Left-pad a digit string with zeros to length `d`. -/
def padZeros (s : String) (d : ℕ) : String :=
  String.mk (List.replicate (d - s.length) '0') ++ s

/-- Python's fixed-point f-string formatting of a number with `d` fractional
digits (`f"{x:.2f}"`, `f"{x:.1f}"`): round half to even at the `d`-th digit,
then print sign, integer part, point, zero-padded fractional part. -/
def formatFixed (q : ℚ) (d : ℕ) : String :=
  let scaled := roundHalfEven (q * (10 : ℚ) ^ d)
  let sign := if scaled < 0 then "-" else ""
  let magnitude := scaled.natAbs
  let intPart := magnitude / 10 ^ d
  let fracPart := magnitude % 10 ^ d
  sign ++ toString intPart ++ "." ++ padZeros (toString fracPart) d

/-- `GameEngine.format_number` (`backend/game/engine.py` lines 154-172):
thresholded rendering with suffixes `K`, `M`, `B`. -/
def format_number (number : ℚ) : String :=
  if number < 1000 then formatFixed number 2
  else if number < 1000000 then formatFixed (number / 1000) 1 ++ "K"
  else if number < 1000000000 then formatFixed (number / 1000000) 1 ++ "M"
  else formatFixed (number / 1000000000) 1 ++ "B"

/-- `GameEngine.format_time` (`backend/game/engine.py` lines 174-195): below
one hour, whole minutes with suffix "м"; otherwise whole hours "ч" and, when
nonzero, remaining whole minutes "м". -/
def format_time (hours : ℚ) : String :=
  if hours < 1 then
    intStr (pyInt (hours * 60)) ++ "м"
  else
    let full_hours := pyInt hours
    let minutes := pyInt ((hours - full_hours) * 60)
    if minutes = 0 then intStr full_hours ++ "ч"
    else intStr full_hours ++ "ч " ++ intStr minutes ++ "м"

/-- One row of the `user_progress` table as used by `Database.get_user_rank`
(`user_id` is the table's primary key). -/
structure ProgressRow where
  user_id : ℤ
  total_earned : ℚ

/-- `Database.get_user_rank` (`backend/database/db.py` lines 268-278).  The SQL
is `SELECT COUNT(*) + 1 as rank FROM user_progress WHERE total_earned >
(SELECT total_earned FROM user_progress WHERE user_id = ?)`.  When the player
has no row the scalar subquery yields SQL NULL and `total_earned > NULL` is
NULL for every row, so no row passes the filter and the aggregate row carries
`0 + 1`; an aggregate query always produces exactly one row, so the Python
`return result['rank'] if result else None` never takes its `else None`
branch. -/
def get_user_rank (table : List ProgressRow) (uid : ℤ) : Option ℤ :=
  match (table.filter (fun r => r.user_id = uid)).head? with
  | none => some (0 + 1)
  | some r =>
      some (((table.filter (fun s => r.total_earned < s.total_earned)).length : ℤ) + 1)

/-!  Claim theorems. -/

/-- C1: the claim states that `computeOfflineIncome` clamps at zero: for
`incomePerHour ≥ 0` and `lastCollectedAt` in the future of `now` it should
return `income = 0` and `cappedHours = 0`.  The code does not clamp: with
`income_per_hour = 10`, `last_collected` 7200 seconds in the future of the
sampled clock (`now = 0`), it returns `income = -20` and `hours = -2`, a
negative income. -/
theorem C1_code_bug_eval :
    calculate_offline_income 10 7200 0 24 = (-20, -2) ∧
      (calculate_offline_income 10 7200 0 24).1 < 0 := by
  constructor <;> norm_num [calculate_offline_income, Prod.ext_iff]

/-- C2 counterexample: `calculate_offline_income` is not a function of its
Python arguments alone — it also reads the wall clock.  With identical
arguments `income_per_hour = 10`, `last_collected = 3600`, `max_hours = 24`,
two invocations whose sampled clock values are 7200 and 10800 return
different results (income 10 versus 20). -/
theorem C2_counterexample :
    calculate_offline_income 10 3600 7200 24 ≠
      calculate_offline_income 10 3600 10800 24 := by
  norm_num [calculate_offline_income, Prod.ext_iff]

/-- C2 amended: once the sampled clock value is included among
`computeOfflineIncome`'s arguments, every engine operation is a deterministic
pure function of its arguments: two invocations with identical argument
values yield identical results. -/
theorem C2_amended :
    (∀ i l n m, calculate_offline_income i l n m =
        calculate_offline_income i l n m) ∧
    (∀ b c m, calculate_upgrade_cost b c m = calculate_upgrade_cost b c m) ∧
    (∀ b u g, calculate_total_income b u g = calculate_total_income b u g) ∧
    (∀ p a, check_achievement_progress p a = check_achievement_progress p a) ∧
    (∀ s g, calculate_minigame_reward s g = calculate_minigame_reward s g) ∧
    (∀ n, format_number n = format_number n) ∧
    (∀ h, format_time h = format_time h) :=
  ⟨fun _ _ _ _ => rfl, fun _ _ _ => rfl, fun _ _ _ => rfl, fun _ _ => rfl,
    fun _ _ => rfl, fun _ => rfl, fun _ => rfl⟩

/-- C3 counterexample: for a `guests_served` achievement the code returns the
plain Boolean `false` — the very same value it returns for a genuinely unmet
`total_earned` condition — so no caller can distinguish "unsupported condition
type" from "condition not yet met". -/
theorem C3_counterexample :
    check_achievement_progress ⟨some 1000000, some 50⟩ ⟨"guests_served", 0⟩ =
        false ∧
      check_achievement_progress ⟨some 0, some 0⟩ ⟨"total_earned", 100⟩ =
        false :=
  ⟨rfl, rfl⟩

/-- C3 amended: for every progress snapshot and every `guests_served`
threshold, `check_achievement_progress` returns the plain Boolean `false`,
indistinguishable from a not-yet-met condition; no explicit "unsupported
condition type" outcome exists in the code. -/
theorem C3_amended :
    ∀ (p : ProgressData) (v : ℚ),
      check_achievement_progress p ⟨"guests_served", v⟩ = false :=
  fun _ _ => rfl

/-- The un-rounded cost `base_cost * multiplier ^ level` grows weakly with the
level when the multiplier is at least one. -/
lemma upgrade_base_mono (base m : ℚ) (L : ℕ) (hb : 0 < base) (hm : 1 ≤ m) :
    base * m ^ L ≤ base * m ^ (L + 1) := by
  have hm0 : (0 : ℚ) ≤ m := le_trans zero_le_one hm
  have hpow : m ^ L ≤ m ^ (L + 1) := by
    calc m ^ L = m ^ L * 1 := (mul_one _).symm
    _ ≤ m ^ L * m := by
        exact mul_le_mul_of_nonneg_left hm (pow_nonneg hm0 L)
    _ = m ^ (L + 1) := (pow_succ m L).symm
  exact mul_le_mul_of_nonneg_left hpow hb.le

/-- When one level's un-rounded cost step is at least one whole unit, the
ceiling-rounded cost strictly increases. -/
lemma upgrade_cost_strict_of_step (base m : ℚ) (L : ℕ) (hb : 0 < base)
    (hm : 1 < m) (hstep : 1 ≤ base * (m - 1)) :
    calculate_upgrade_cost base L m < calculate_upgrade_cost base (L + 1) m := by
  unfold calculate_upgrade_cost
  have hm0 : (0 : ℚ) ≤ m := le_trans zero_le_one hm.le
  have hpow : 1 ≤ m ^ L := one_le_pow₀ hm.le
  have key : base * m ^ L + 1 ≤ base * m ^ (L + 1) := by
    have expand : base * m ^ (L + 1) - base * m ^ L = base * (m - 1) * m ^ L := by
      ring
    nlinarith [hstep, hpow, mul_le_mul_of_nonneg_left hpow
      (le_trans zero_le_one hstep)]
  have cast_lt : ((⌈base * m ^ L⌉ : ℚ)) < ((⌈base * m ^ (L + 1)⌉ : ℚ)) := by
    calc ((⌈base * m ^ L⌉ : ℚ)) < base * m ^ L + 1 := Int.ceil_lt_add_one _
    _ ≤ base * m ^ (L + 1) := key
    _ ≤ ((⌈base * m ^ (L + 1)⌉ : ℚ)) := Int.le_ceil _
  exact_mod_cast cast_lt

/-- C5 amended: the ceiling rounding can merge consecutive levels, so the cost
is monotonically non-decreasing in `currentLevel` (for `baseCost > 0`,
`multiplier > 1`), and strictly increasing whenever one level's un-rounded
step `baseCost * (multiplier - 1)` is at least 1 — in particular at every
level of the default configuration `baseCost = 50`, `multiplier = 1.15`. -/
theorem C5_amended (base m : ℚ) (L : ℕ) (hb : 0 < base) (hm : 1 < m) :
    calculate_upgrade_cost base L m ≤ calculate_upgrade_cost base (L + 1) m ∧
    (1 ≤ base * (m - 1) →
      calculate_upgrade_cost base L m < calculate_upgrade_cost base (L + 1) m) ∧
    calculate_upgrade_cost 50 L (23 / 20) <
      calculate_upgrade_cost 50 (L + 1) (23 / 20) := by
  refine ⟨?_, fun hstep => upgrade_cost_strict_of_step base m L hb hm hstep, ?_⟩
  · exact Int.ceil_mono (upgrade_base_mono base m L hb hm.le)
  · exact upgrade_cost_strict_of_step 50 (23 / 20) L (by norm_num) (by norm_num)
      (by norm_num)

/-- C5 witness: with the default catalog parameters `baseCost = 50`,
`multiplier = 1.15`, the cost of level 1 strictly exceeds the cost of
level 0. -/
theorem C5_amended_witness :
    calculate_upgrade_cost 50 0 (23 / 20) <
      calculate_upgrade_cost 50 1 (23 / 20) :=
  (C5_amended 50 2 0 (by decide) (by decide)).2.2

/-- C5 counterexample: the claim's strict increase fails: `baseCost = 0.1 > 0`
and `multiplier = 1.01 > 1` give `nextCost = ⌈0.1⌉ = 1` at level 0 and
`nextCost = ⌈0.101⌉ = 1` at level 1 — equal, not strictly greater. -/
theorem C5_counterexample :
    (0 : ℚ) < 1 / 10 ∧ (1 : ℚ) < 101 / 100 ∧
      ¬ calculate_upgrade_cost (1 / 10) 0 (101 / 100) <
          calculate_upgrade_cost (1 / 10) 1 (101 / 100) := by
  have h0 : calculate_upgrade_cost (1 / 10) 0 (101 / 100) = 1 := by
    unfold calculate_upgrade_cost
    norm_num [Int.ceil_eq_iff]
  have h1 : calculate_upgrade_cost (1 / 10) 1 (101 / 100) = 1 := by
    unfold calculate_upgrade_cost
    norm_num [Int.ceil_eq_iff]
  refine ⟨by norm_num, by norm_num, ?_⟩
  rw [h0, h1]
  exact lt_irrefl 1

/-- C6 amended: `nextCost` returns `⌈baseCost * multiplier ^ level⌉`; the
first purchase costs `⌈baseCost⌉`, which equals `baseCost` exactly when
`baseCost` is a whole number (as are all catalog base costs); and
`nextCost(50, 0, 1.15) = 50`, `nextCost(50, 1, 1.15) = 58`. -/
theorem C6_amended (base m : ℚ) (L : ℕ) (z : ℤ) (hb : 0 < base) (hm : 1 < m) :
    calculate_upgrade_cost base L m = ⌈base * m ^ L⌉ ∧
    calculate_upgrade_cost base 0 m = ⌈base⌉ ∧
    (base = z → (calculate_upgrade_cost base 0 m : ℚ) = base) ∧
    calculate_upgrade_cost 50 0 (23 / 20) = 50 ∧
    calculate_upgrade_cost 50 1 (23 / 20) = 58 := by
  have hzero : calculate_upgrade_cost base 0 m = ⌈base⌉ := by
    unfold calculate_upgrade_cost
    rw [pow_zero, mul_one]
  refine ⟨rfl, hzero, ?_, ?_, ?_⟩
  · intro hz
    rw [hzero, hz, Int.ceil_intCast]
  · unfold calculate_upgrade_cost
    norm_num [Int.ceil_eq_iff]
  · unfold calculate_upgrade_cost
    norm_num [Int.ceil_eq_iff]

/-- C6 witness: the two concrete costs of the claim, via the amended
theorem at `baseCost = 50`. -/
theorem C6_amended_witness :
    calculate_upgrade_cost 50 0 (23 / 20) = 50 ∧
      calculate_upgrade_cost 50 1 (23 / 20) = 58 :=
  ⟨(C6_amended 50 2 0 50 (by decide) (by decide)).2.2.2.1,
    (C6_amended 50 2 0 50 (by decide) (by decide)).2.2.2.2⟩

/-- C6 counterexample: for the non-integer `baseCost = 0.5 > 0` (with
`multiplier = 2 > 1`) the first purchase costs `⌈0.5⌉ = 1`, not exactly
`baseCost`. -/
theorem C6_counterexample :
    (0 : ℚ) < 1 / 2 ∧ (1 : ℚ) < 2 ∧
      (calculate_upgrade_cost (1 / 2) 0 2 : ℚ) ≠ 1 / 2 := by
  have h : calculate_upgrade_cost (1 / 2) 0 2 = 1 := by
    unfold calculate_upgrade_cost
    norm_num [Int.ceil_eq_iff]
  refine ⟨by norm_num, by norm_num, ?_⟩
  rw [h]
  norm_num

/-- The accumulator loop of `calculate_total_income`, expressed as the two
linear sums of the spec. -/
lemma total_income_foldl (ups : List UpgradeRow) (a b : ℚ) :
    ups.foldl
      (fun acc upgrade =>
        (acc.1 + upgrade.income_bonus.getD 0 * upgrade.level.getD 0,
         acc.2 + upgrade.guests_bonus.getD 0 * upgrade.level.getD 0))
      (a, b) =
    (a + (ups.map (fun u => u.level.getD 0 * u.income_bonus.getD 0)).sum,
     b + (ups.map (fun u => u.level.getD 0 * u.guests_bonus.getD 0)).sum) := by
  induction ups generalizing a b with
  | nil => simp
  | cons u t ih =>
    simp only [List.foldl_cons, List.map_cons, List.sum_cons, ih,
      Prod.mk.injEq]
    constructor <;> ring

/-- C7: `aggregate` returns
`incomePerHour = baseIncome + Σ(level_i * incomeBonus_i)` and
`guestsPerHour = baseGuests + Σ(level_i * guestsBonus_i)` (where the guest
base is the configured `INITIAL_GUESTS_PER_HOUR`), and on the claim's concrete
input it returns `(12, 5)`. -/
theorem C7_confirmed (base_income initial_guests : ℚ)
    (ups : List UpgradeRow) :
    calculate_total_income base_income ups initial_guests =
      (base_income +
        (ups.map (fun u => u.level.getD 0 * u.income_bonus.getD 0)).sum,
       initial_guests +
        (ups.map (fun u => u.level.getD 0 * u.guests_bonus.getD 0)).sum) ∧
    calculate_total_income 10
        [⟨some 2, some 1, some 0⟩, ⟨some 1, some 0, some 3⟩] 2 = (12, 5) := by
  constructor
  · unfold calculate_total_income
    rw [total_income_foldl]
    simp
  · norm_num [calculate_total_income, Prod.ext_iff]

/-- Rounding a rational that is already an integer changes nothing. -/
lemma roundHalfEven_intCast (z : ℤ) : roundHalfEven (z : ℚ) = z := by
  unfold roundHalfEven
  rw [Int.floor_intCast]
  norm_num

/-- `pyRound2` is the identity on integers. -/
lemma pyRound2_intCast (z : ℤ) : pyRound2 (z : ℚ) = z := by
  unfold pyRound2
  rw [show ((z : ℚ) * 100) = ((z * 100 : ℤ) : ℚ) by push_cast; ring,
    roundHalfEven_intCast]
  push_cast
  field_simp

/-- The bonus bracket as the claim words it: `b = 1.5` when `score > 50`,
otherwise `b = 1`; the claim asserts the code's second-checked
`score > 100 ⇒ ×2.0` bracket is unreachable. -/
def claimBracket (score : ℤ) : ℚ := if 50 < score then 3 / 2 else 1

/-- C8: `computeReward` equals `round(score * m * b, 2)` with `m` the
per-point multiplier and `b = 1.5` iff `score > 50` — the code's `elif
score > 100` branch is unreachable, so it never contributes — and
`computeReward(60, "burger_flip") = 45`. -/
theorem C8_confirmed (score : ℤ) (game_type : String) :
    calculate_minigame_reward score game_type =
      pyRound2 ((score : ℚ) * minigameMultiplier game_type *
        claimBracket score) ∧
    calculate_minigame_reward 60 "burger_flip" = 45 := by
  constructor
  · unfold calculate_minigame_reward claimBracket
    by_cases h50 : 50 < score
    · simp [h50]
    · have h100 : ¬ 100 < score := fun h => h50 (lt_trans (by norm_num) h)
      simp [h50, h100]
  · have harg : calculate_minigame_reward 60 "burger_flip" =
        pyRound2 ((45 : ℤ) : ℚ) := by
      unfold calculate_minigame_reward minigameMultiplier
      norm_num
    rw [harg, pyRound2_intCast]
    norm_num

/-- C9: with a non-negative rate and a collection time not in the future,
`computeOfflineIncome` returns `cappedHours = min(elapsed, maxHours)` and
`income = incomePerHour * cappedHours`; the income is non-decreasing as the
clock advances and equals `incomePerHour * maxHours` once the elapsed time
reaches the cap. -/
theorem C9_confirmed (rate last now now2 max_h : ℚ) (hr : 0 ≤ rate)
    (hl : last ≤ now) (h2 : now ≤ now2) :
    (calculate_offline_income rate last now max_h).2 =
        min ((now - last) / 3600) max_h ∧
    (calculate_offline_income rate last now max_h).1 =
        rate * min ((now - last) / 3600) max_h ∧
    (calculate_offline_income rate last now max_h).1 ≤
        (calculate_offline_income rate last now2 max_h).1 ∧
    (max_h ≤ (now2 - last) / 3600 →
        (calculate_offline_income rate last now2 max_h).1 = rate * max_h) := by
  refine ⟨rfl, rfl, ?_, ?_⟩
  · unfold calculate_offline_income
    simp only
    have he : (now - last) / 3600 ≤ (now2 - last) / 3600 :=
      (div_le_div_iff_of_pos_right (by norm_num)).mpr (sub_le_sub_right h2 last)
    exact mul_le_mul_of_nonneg_left (min_le_min he le_rfl) hr
  · intro hcap
    unfold calculate_offline_income
    simp only
    rw [min_eq_right hcap]

/-- C9 witness: at rate 10, `last_collected = 0`, clock 3600 (one hour
elapsed) versus clock 360000 (a hundred hours elapsed, beyond the 24-hour
cap), the earlier income does not exceed the later one. -/
theorem C9_confirmed_witness :
    (calculate_offline_income 10 0 3600 24).1 ≤
      (calculate_offline_income 10 0 360000 24).1 :=
  (C9_confirmed 10 0 3600 360000 24 (by decide) (by decide) (by decide)).2.2.1

/-- C10: when the progress dict lacks the field named by `total_earned` or
`upgrades_count`, `check_achievement_progress` does not fail: the missing
value reads as 0, so the achievement is satisfied exactly when
`conditionValue ≤ 0`. -/
theorem C10_confirmed (v : ℚ) (other : Option ℚ) :
    (check_achievement_progress ⟨none, other⟩ ⟨"total_earned", v⟩ = true ↔
        v ≤ 0) ∧
    (check_achievement_progress ⟨other, none⟩ ⟨"upgrades_count", v⟩ = true ↔
        v ≤ 0) := by
  constructor <;> simp [check_achievement_progress]

/-- C4: the claim states that `get_user_rank` returns none/absent when the
player has no progress record.  It does not: with a table holding only player
1, asking for absent player 2 returns rank 1 (the NULL subquery defeats the
filter, the aggregate still yields a row, and the `else None` branch is dead
code); the same happens on an empty table. -/
theorem C4_code_bug_eval :
    get_user_rank [⟨1, 100⟩] 2 = some 1 ∧
      get_user_rank [⟨1, 100⟩] 2 ≠ none ∧
      get_user_rank [] 5 = some 1 := by
  refine ⟨rfl, ?_, rfl⟩
  decide
